import Mathlib

/-!
Verification of the erbium packet-plane core (DNS ingress engine and IPv6
Router Advertisement builder) against its natural-language specification.

The definitions below are a shallow embedding of the Rust sources
`src/src/dns/mod.rs` and `src/crates/erbium-core/src/radv/mod.rs`.
Machine integers are modelled as `Nat` with explicit `%` where overflow or
wrap matters; byte strings are `List Nat`; fallible operations return
`Option` or `Except`.  Code of the repository that is not part of the given
sources (the token-bucket module, the DNS wire codec, the config module and
the socket layer) is modelled from the specification and marked as such in
the corresponding doc comments.
-/

namespace Erbium

/-- Transport protocol of an inbound DNS message (`enum Protocol` in
`dns/mod.rs`). -/
inductive Protocol where
  | udp
  | tcp
deriving DecidableEq, Repr

/-- An IPv6 address as its eight 16-bit segments (`std::net::Ipv6Addr`,
viewed through `segments()`).  Each segment is a `Nat` below `2^16` for
real addresses; none of the properties proved here need the bound. -/
structure Ipv6 where
  s0 : Nat
  s1 : Nat
  s2 : Nat
  s3 : Nat
  s4 : Nat
  s5 : Nat
  s6 : Nat
  s7 : Nat
deriving DecidableEq, Repr

/-- The unspecified address `::`. -/
def Ipv6.unspecified : Ipv6 := ⟨0, 0, 0, 0, 0, 0, 0, 0⟩

/-- The loopback address `::1`. -/
def Ipv6.localhost : Ipv6 := ⟨0, 0, 0, 0, 0, 0, 0, 1⟩

/-- Big-endian octets of an IPv6 address (`Ipv6Addr::octets`): two octets
per segment, most significant first. -/
def Ipv6.octets (a : Ipv6) : List Nat :=
  [a.s0, a.s1, a.s2, a.s3, a.s4, a.s5, a.s6, a.s7].flatMap
    (fun s => [s / 256, s % 256])

/-- An IP address (`std::net::IpAddr`): IPv4 carries its four octets
directly, IPv6 carries the segment form. -/
inductive IpAddr where
  | v4 (octets : List Nat)
  | v6 (addr : Ipv6)
deriving DecidableEq, Repr

/-- The octets fed to the cookie MAC: 4 bytes for IPv4 and 16 bytes for
IPv6, with no normalization to v6-mapped form (mirrors both `match` arms of
`DnsMessage::calculate_cookie`). -/
def IpAddr.cookieOctets : IpAddr → List Nat
  | .v4 o => o
  | .v6 a => a.octets

/-! ## DNS packet model

The DNS wire codec (`dns/dnspkt.rs`) is not among the given sources; the
shape of `DNSPkt` and `EdnsData` below is reconstructed from every field
access in `dns/mod.rs`, and the numeric constants are modelled from the
spec (RFC 1035 RCODEs, RFC 8914 EDE codes). -/

/-- EDNS data carried in a packet.  `dns/mod.rs` reads the cookie as an
optional pair of a client half and an optional server half, and writes
NSID, COOKIE and Extended DNS Error options into a `Default::default()`
value. -/
structure EdnsData where
  nsid : Option (List Nat) := none
  cookie : Option (List Nat × Option (List Nat)) := none
  extendedDnsError : Option (Nat × String) := none
deriving DecidableEq, Repr

instance : Inhabited EdnsData := ⟨{}⟩

/-- Mirror of `EdnsData::set_nsid`. -/
def EdnsData.set_nsid (e : EdnsData) (v : List Nat) : EdnsData :=
  { e with nsid := some v }

/-- Mirror of `EdnsData::set_cookie` (used with an explicit server half in
`create_in_reply`). -/
def EdnsData.set_cookie (e : EdnsData) (client server : List Nat) : EdnsData :=
  { e with cookie := some (client, some server) }

/-- Mirror of `EdnsData::set_extended_dns_error`. -/
def EdnsData.set_extended_dns_error (e : EdnsData) (code : Nat) (txt : String) :
    EdnsData :=
  { e with extendedDnsError := some (code, txt) }

/-- Mirror of `EdnsData::get_cookie`. -/
def EdnsData.get_cookie (e : EdnsData) : Option (List Nat × Option (List Nat)) :=
  e.cookie

/-- Modelled from the spec: RCODE REFUSED (RFC 1035 value 5; the constant
itself lives in the `dnspkt` module, which is not among the given
sources). -/
def REFUSED : Nat := 5

/-- Modelled from the spec: RCODE SERVFAIL (RFC 1035 value 2). -/
def SERVFAIL : Nat := 2

/-- Modelled from the spec: the QUERY opcode (RFC 1035 value 0). -/
def OPCODE_QUERY : Nat := 0

/-- Modelled from the spec: RFC 8914 Extended DNS Error code Other. -/
def EDE_OTHER : Nat := 0

/-- Modelled from the spec: RFC 8914 Extended DNS Error code Prohibited. -/
def EDE_PROHIBITED : Nat := 18

/-- Modelled from the spec: RFC 8914 Extended DNS Error code Not
Authoritative. -/
def EDE_NOT_AUTHORITATIVE : Nat := 20

/-- Modelled from the spec: RFC 8914 Extended DNS Error code No Reachable
Authority. -/
def EDE_NO_REACHABLE_AUTHORITY : Nat := 22

/-- Modelled from the spec: RFC 8914 Extended DNS Error code Network
Error. -/
def EDE_NETWORK_ERROR : Nat := 23

/-- A parsed DNS packet.  Question and resource-record sections are kept
opaque (`List Nat` of abstract records); only the fields `dns/mod.rs`
touches are modelled. -/
structure DNSPkt where
  qid : Nat
  rd : Bool
  tc : Bool
  aa : Bool
  qr : Bool
  opcode : Nat
  cd : Bool
  ad : Bool
  ra : Bool
  rcode : Nat
  bufsize : Nat
  edns_ver : Option Nat
  edns_do : Bool
  question : List Nat
  answer : List Nat
  nameserver : List Nat
  additional : List Nat
  edns : Option EdnsData
deriving DecidableEq, Repr

/-- The fixed cookie key `COOKIE_KEY`: the big-endian bytes of
`0x0123_4567_89ab_cdef`. -/
def COOKIE_KEY : List Nat := [0x01, 0x23, 0x45, 0x67, 0x89, 0xab, 0xcd, 0xef]

/-- A received DNS message with its metadata (`struct DnsMessage`).
`remote_ip` stands for `remote_addr.ip()`, which is the only part of the
socket address the verified code consumes. -/
structure DnsMessage where
  in_query : DNSPkt
  in_size : Nat
  local_ip : IpAddr
  remote_ip : IpAddr
  protocol : Protocol
deriving DecidableEq, Repr

/-- Cookie validation result (`enum CookieStatus`). -/
inductive CookieStatus where
  | missing
  | bad
  | good
deriving DecidableEq, Repr

/-- An HMAC-SHA256 primitive: key and data to MAC code.  The `crypto` crate
is external, so the MAC is a parameter of every cookie definition; the
real instantiation returns 32 octets. -/
abbrev HmacFn := List Nat → List Nat → List Nat

/-- Mirror of `DnsMessage::calculate_cookie`: MAC over the client cookie
followed by the local then the remote IP octets, under `key`. -/
def DnsMessage.calculate_cookie (msg : DnsMessage) (hmac : HmacFn)
    (client key : List Nat) : List Nat :=
  hmac key (client ++ msg.local_ip.cookieOctets ++ msg.remote_ip.cookieOctets)

/-- The cookie option of the inbound query, if any (the
`msg.in_query.edns.as_ref().and_then(get_cookie)` chain). -/
def DnsMessage.cookieOf (msg : DnsMessage) :
    Option (List Nat × Option (List Nat)) :=
  msg.in_query.edns.bind (·.get_cookie)

/-- Mirror of `DnsMessage::validate_cookie_key`: Good when the query
carries a cookie with a server half bytewise equal to the computed MAC,
Bad when the server half differs, Missing otherwise (no cookie at all, or
a cookie without a server half fails the `Some((client, Some(server)))`
pattern). -/
def DnsMessage.validate_cookie_key (msg : DnsMessage) (hmac : HmacFn)
    (key : List Nat) : CookieStatus :=
  match msg.cookieOf with
  | some (client, some server) =>
      if msg.calculate_cookie hmac client key = server then .good else .bad
  | _ => .missing

/-- Mirror of `DnsMessage::validate_cookie`: check the new key first and
retry with the old key only on Bad. -/
def DnsMessage.validate_cookie (msg : DnsMessage) (hmac : HmacFn)
    (key oldkey : List Nat) : CookieStatus :=
  match msg.validate_cookie_key hmac key with
  | .bad => msg.validate_cookie_key hmac oldkey
  | status => status

/-! ## Rate limiter (bloom-of-token-buckets) -/

/-- Seed constant `SEED1` of `IpRateLimiter::check`. -/
def SEED1 : Nat := 0x123456789ABCDEF0

/-- Seed constant `SEED2` of `IpRateLimiter::check`. -/
def SEED2 : Nat := 0x23456789ABCDEF01

/-- Pointwise update of a bucket array, used to express depletion. -/
def updateAt (f : Nat → Nat) (i v : Nat) : Nat → Nat :=
  fun j => if j = i then v else f j

/-- Modelled from the spec together with `IpRateLimiter::check`: the bucket
module (`dns/bucket.rs`) is not among the given sources, so a bucket is
its token count at decision time, `check` passes when the count covers the
cost, and `deplete` subtracts the cost.  The branch structure, the array
length 256, the modulus 255 and the collision fixup mirror
`IpRateLimiter::check` line by line; `h1` and `h2` are the salted hash
values `hash_ip(SEED1, ip)` and `hash_ip(SEED2, ip)`. -/
def rlCheck (st : Nat → Nat) (h1 h2 cost : Nat) : Bool × (Nat → Nat) :=
  let bucket1 := h1 % 256
  if cost ≤ st bucket1 then
    (true, updateAt st bucket1 (st bucket1 - cost))
  else
    let bucket2pre := h2 % (256 - 1)
    let bucket2 := if bucket2pre = bucket1 then 256 - 1 else bucket2pre
    if cost ≤ st bucket2 then
      (true, updateAt st bucket2 (st bucket2 - cost))
    else
      (false, st)

/-- Mirror of `IpRateLimiter::check` with the hash function abstracted
(`DefaultHasher` is opaque library code): salt the two seeds into the
hash and run the two-bucket probe. -/
def ipRateLimiterCheck (hashIp : Nat → IpAddr → Nat) (st : Nat → Nat)
    (ip : IpAddr) (cost : Nat) : Bool × (Nat → Nat) :=
  rlCheck st (hashIp SEED1 ip) (hashIp SEED2 ip) cost

/-- First bucket index as the spec words it: `hash(SEED1, ip) mod 256`. -/
def specBucket1 (h1 : Nat) : Nat := h1 % 256

/-- Second bucket index as the spec words it: `hash(SEED2, ip) mod 255`,
mapped to bucket 255 when it collides with the first bucket. -/
def specBucket2 (h1 h2 : Nat) : Nat :=
  if h2 % 255 = specBucket1 h1 then 255 else h2 % 255

/-- The cost expression of `DnsListenerHandler::should_ratelimit`:
`(reply_size * 2).saturating_sub(query_size)` (natural subtraction
saturates at zero exactly like `saturating_sub`). -/
def costCharged (query_size reply_size : Nat) : Nat :=
  reply_size * 2 - query_size

/-- Mirror of `DnsListenerHandler::should_ratelimit`.  The result is
`(drop_reply, limiter_state_after, limiter_consulted)`; the final
component records whether `rate_limiter.check` was invoked, which in the
source happens exactly when neither early `return false` fires. -/
def should_ratelimit (hashIp : Nat → IpAddr → Nat) (hmac : HmacFn)
    (msg : DnsMessage) (in_reply : DNSPkt) (in_reply_serialised : List Nat)
    (st : Nat → Nat) : Bool × (Nat → Nat) × Bool :=
  if in_reply.rcode ≠ REFUSED then
    (false, st, false)
  else if msg.validate_cookie_key hmac COOKIE_KEY = .good then
    (false, st, false)
  else
    let cost := costCharged msg.in_size in_reply_serialised.length
    let r := ipRateLimiterCheck hashIp st msg.remote_ip cost
    (!r.1, r.2, true)

/-- The transport-dependent send gate around a synthesized reply: the UDP
task (`run_udp`) sends iff `should_ratelimit` is false, while the TCP task
(`run_tcp`) writes the framed reply unconditionally and never touches the
limiter.  Result is `(send_reply, limiter_state_after,
limiter_consulted)`. -/
def replyGate (hashIp : Nat → IpAddr → Nat) (hmac : HmacFn)
    (msg : DnsMessage) (in_reply : DNSPkt) (in_reply_serialised : List Nat)
    (st : Nat → Nat) : Bool × (Nat → Nat) × Bool :=
  match msg.protocol with
  | .udp =>
      let r := should_ratelimit hashIp hmac msg in_reply in_reply_serialised st
      (!r.1, r.2.1, r.2.2)
  | .tcp => (true, st, false)

/-! ## Reply synthesis -/

/-- Mirror of `DnsListenerHandler::create_in_reply`.  `ipText` stands for
the ASCII rendering `format!("{}", local_ip).as_bytes()` used as the NSID
payload (string formatting of addresses is std library code, abstracted as
a parameter). -/
def create_in_reply (ipText : IpAddr → List Nat) (hmac : HmacFn)
    (msg : DnsMessage) (outr : DNSPkt) : DNSPkt :=
  let edns0 : EdnsData := {}
  let edns1 :=
    if (msg.in_query.edns.map (fun e => e.nsid.isSome)).getD false then
      edns0.set_nsid (ipText msg.local_ip)
    else edns0
  let edns2 :=
    match msg.cookieOf with
    | some (client, _server) =>
        edns1.set_cookie client
          ((msg.calculate_cookie hmac client COOKIE_KEY).take 32)
    | none => edns1
  { qid := msg.in_query.qid
    rd := false
    tc := outr.tc
    aa := outr.aa
    qr := true
    opcode := OPCODE_QUERY
    cd := outr.cd
    ad := outr.ad
    ra := outr.ra
    rcode := outr.rcode
    bufsize := 4096
    edns_ver := msg.in_query.edns_ver.map (fun _ => 0)
    edns_do := false
    question := msg.in_query.question
    answer := outr.answer
    nameserver := outr.answer
    additional := outr.additional
    edns := some edns2 }

/-! ## Error synthesis -/

/-- Mirror of `outquery::Error` (variants as matched in
`create_in_error`; payloads reduced to their display strings). -/
inductive OutqueryError where
  | timeout
  | failedToSend (io : String)
  | failedToSendMsg (msg : String)
  | failedToRecv (io : String)
  | failedToRecvMsg (msg : String)
  | tcpConnectionError (msg : String)
  | parseError (msg : String)
  | internalError (msg : String)
deriving DecidableEq, Repr

/-- Mirror of `dns::Error` (payloads reduced to display strings). -/
inductive DnsError where
  | listenError (io : String)
  | recvError (io : String)
  | parseError (msg : String)
  | refusedByAcl (why : String)
  | denied (why : String)
  | notAuthoritative
  | outReply (e : OutqueryError)
deriving DecidableEq, Repr

/-- Mirror of `DnsListenerHandler::create_in_error`.  The three
`unreachable!()` arms are modelled as `none` (the source panics there);
every other arm fills in the rcode and an Extended DNS Error option over
an otherwise default EDNS. -/
def create_in_error (msg : DnsMessage) (err : DnsError) : Option DNSPkt :=
  let mk : Nat → EdnsData → DNSPkt := fun rcode edns =>
    { qid := msg.in_query.qid
      rd := false
      tc := false
      aa := false
      qr := true
      opcode := OPCODE_QUERY
      cd := false
      ad := false
      ra := true
      rcode := rcode
      bufsize := 4096
      edns_ver := msg.in_query.edns_ver.map (fun _ => 0)
      edns_do := false
      question := msg.in_query.question
      answer := []
      additional := []
      nameserver := []
      edns := some edns }
  let edns : EdnsData := {}
  match err with
  | .listenError _ => none
  | .recvError _ => none
  | .parseError _ => none
  | .refusedByAcl why =>
      some (mk REFUSED (edns.set_extended_dns_error EDE_PROHIBITED why))
  | .denied why =>
      some (mk REFUSED (edns.set_extended_dns_error EDE_PROHIBITED why))
  | .notAuthoritative =>
      some (mk REFUSED
        (edns.set_extended_dns_error EDE_NOT_AUTHORITATIVE "Not Authoritative"))
  | .outReply .timeout =>
      some (mk SERVFAIL
        (edns.set_extended_dns_error EDE_NO_REACHABLE_AUTHORITY
          "Timed out talking to upstream server"))
  | .outReply (.failedToSend io) =>
      some (mk SERVFAIL (edns.set_extended_dns_error EDE_NETWORK_ERROR io))
  | .outReply (.failedToSendMsg m) =>
      some (mk SERVFAIL (edns.set_extended_dns_error EDE_NETWORK_ERROR m))
  | .outReply (.failedToRecv io) =>
      some (mk SERVFAIL (edns.set_extended_dns_error EDE_NETWORK_ERROR io))
  | .outReply (.failedToRecvMsg m) =>
      some (mk SERVFAIL (edns.set_extended_dns_error EDE_NETWORK_ERROR m))
  | .outReply (.tcpConnectionError m) =>
      some (mk SERVFAIL (edns.set_extended_dns_error EDE_NETWORK_ERROR m))
  | .outReply (.parseError m) =>
      some (mk SERVFAIL (edns.set_extended_dns_error EDE_NETWORK_ERROR m))
  | .outReply (.internalError _) =>
      some (mk SERVFAIL (edns.set_extended_dns_error EDE_OTHER "Internal Error"))

/-- Modelled from the spec: the error surface of the downstream
ACL/resolver chain (`handle_query` of `dns/acl.rs`, not among the given
sources) consists of exactly the reply-owed errors of the spec table —
ACL refusal, policy denial, not-authoritative and upstream `OutReply`
errors; listen, receive and parse errors are filtered out before reply
synthesis (section 4.7 and section 7 of the spec). -/
inductive QueryError where
  | refusedByAcl (why : String)
  | denied (why : String)
  | notAuthoritative
  | outReply (e : OutqueryError)
deriving DecidableEq, Repr

/-- Injection of the reply-owed errors into the full error type. -/
def QueryError.toError : QueryError → DnsError
  | .refusedByAcl why => .refusedByAcl why
  | .denied why => .denied why
  | .notAuthoritative => .notAuthoritative
  | .outReply e => .outReply e

/-- The RCODE the spec error table assigns to each reply-owed error. -/
def specErrorRcode : QueryError → Nat
  | .refusedByAcl _ => REFUSED
  | .denied _ => REFUSED
  | .notAuthoritative => REFUSED
  | .outReply _ => SERVFAIL

/-- The Extended DNS Error code the spec error table assigns to each
reply-owed error. -/
def specErrorEde : QueryError → Nat
  | .refusedByAcl _ => EDE_PROHIBITED
  | .denied _ => EDE_PROHIBITED
  | .notAuthoritative => EDE_NOT_AUTHORITATIVE
  | .outReply .timeout => EDE_NO_REACHABLE_AUTHORITY
  | .outReply (.internalError _) => EDE_OTHER
  | .outReply _ => EDE_NETWORK_ERROR

/-- The EDE code carried by a reply, if any. -/
def edeCodeOf (p : DNSPkt) : Option Nat :=
  p.edns.bind (fun e => e.extendedDnsError.map (·.1))

/-! ## Building messages from the wire -/

/-- Mirror of `DnsListenerHandler::build_dns_message`: parse the raw
packet and record its length as `in_size`.  The packet parser
(`dns/parse.rs`) is not among the given sources and is abstracted as a
parameter. -/
def build_dns_message (parseDns : List Nat → Except String DNSPkt)
    (pkt : List Nat) (local_ip remote_ip : IpAddr) (protocol : Protocol) :
    Except String DnsMessage :=
  match parseDns pkt with
  | .error e => .error e
  | .ok in_query =>
      .ok { in_query := in_query
            in_size := pkt.length
            local_ip := local_ip
            remote_ip := remote_ip
            protocol := protocol }

/-- The receive size `run_udp` passes to `recv_msg`. -/
def UDP_RECV_SIZE : Nat := 4096

/-- Modelled from the spec: the socket layer (`erbium_net::udp`, not among
the given sources) delivers at most the requested number of octets of a
datagram per `recv_msg` call, so the buffer handed to the UDP task is the
datagram truncated to `UDP_RECV_SIZE`. -/
def udpRecvBuffer (datagram : List Nat) : List Nat :=
  datagram.take UDP_RECV_SIZE

/-- The UDP ingress path of `run_udp`: receive (truncating) and build the
`DnsMessage` with `protocol = UDP`. -/
def udpBuildDnsMessage (parseDns : List Nat → Except String DNSPkt)
    (datagram : List Nat) (local_ip remote_ip : IpAddr) :
    Except String DnsMessage :=
  build_dns_message parseDns (udpRecvBuffer datagram) local_ip remote_ip .udp

/-! ## Router Advertisement: address scopes and source-address selection -/

/-- Mirror of `enum Scope` in `radv/mod.rs`. -/
inductive Scope where
  | link
  | loopback
  | uniqueLocalAddress
  | global
  | unspecified
  | multicast
deriving DecidableEq, Repr

/-- Mirror of `v6_scope`: classify an IPv6 address, checking unique-local
first, then loopback, then unspecified, then the strict `fe80::/64` form
of link-local, then multicast, defaulting to global. -/
def v6_scope (ip6 : Ipv6) : Scope :=
  if ip6.s0 &&& 0xfe00 = 0xfc00 then
    .uniqueLocalAddress
  else if ip6 = Ipv6.localhost then
    .loopback
  else if ip6 = Ipv6.unspecified then
    .unspecified
  else if ip6.s0 = 0xfe80 ∧ ip6.s1 = 0 ∧ ip6.s2 = 0 ∧ ip6.s3 = 0 then
    .link
  else if ip6.s0 &&& 0xff00 = 0xff00 then
    .multicast
  else
    .global

/-- The preference array of `ScopeSorter::cmp`:
`[Unspecified, Link, Global, UniqueLocalAddress]`. -/
def scopeOrderArray : List Scope :=
  [.unspecified, .link, .global, .uniqueLocalAddress]

/-- Position of a scope in the preference array, defaulting to
`usize::MIN` (zero) for scopes not in the array (Loopback, Multicast) —
mirror of `scopes.iter().position(..).unwrap_or(usize::MIN)`. -/
def scopePos (s : Scope) : Nat :=
  (scopeOrderArray.findIdx? (fun x => x = s)).getD 0

/-- Three-way comparison on `Nat`, mirroring `usize::cmp` and
`u16::cmp`. -/
def cmpN (a b : Nat) : Ordering :=
  if a < b then .lt else if b < a then .gt else .eq

/-- Mirror of `Ipv6Addr::cmp`: lexicographic comparison of the eight
segments. -/
def addrCmp (x y : Ipv6) : Ordering :=
  (cmpN x.s0 y.s0).then <| (cmpN x.s1 y.s1).then <| (cmpN x.s2 y.s2).then <|
    (cmpN x.s3 y.s3).then <| (cmpN x.s4 y.s4).then <| (cmpN x.s5 y.s5).then <|
      (cmpN x.s6 y.s6).then <| cmpN x.s7 y.s7

/-- Mirror of `ScopeSorter::cmp`: compare scope positions first and fall
back to the numeric address comparison on a tie. -/
def scopeCmp (x y : Ipv6) : Ordering :=
  let ret := cmpN (scopePos (v6_scope x)) (scopePos (v6_scope y))
  if ret = .eq then addrCmp x y else ret

/-- Mirror of `Iterator::max` under the `ScopeSorter` ordering as used in
`build_announcement` (`max_by` keeps the later element on a tie). -/
def listMax (l : List Ipv6) : Option Ipv6 :=
  match l with
  | [] => none
  | x :: xs =>
      some (xs.foldl (fun m y => if scopeCmp m y = .gt then m else y) x)

/-! ## Router Advertisement: configuration and announcement builder -/

/-- Mirror of `config::ConfigValue` as used from `radv/mod.rs`. -/
inductive ConfigValue (α : Type) where
  | notSpecified
  | value (v : α)
  | dontSet
deriving DecidableEq, Repr

/-- Modelled from the spec: `ConfigValue::unwrap_or` on list-valued
options (the config module is not among the given sources).  `DontSet`
never yields an option; `Value v` always yields the option carrying `v`;
`NotSpecified` yields the fallback iff it is non-empty (spec sections 4.2
and 8.2). -/
def ConfigValue.unwrap_or {α : Type} :
    ConfigValue (List α) → List α → Option (List α)
  | .dontSet, _ => none
  | .value v, _ => some v
  | .notSpecified, fallback => if fallback.isEmpty then none else some fallback

/-- Modelled from the spec: `ConfigValue::always_unwrap_or` substitutes
the supplied default unless an explicit value is configured. -/
def ConfigValue.always_unwrap_or {α : Type} : ConfigValue α → α → α
  | .value v, _ => v
  | _, d => d

/-- Mirror of `config::Prefix` (durations in seconds). -/
structure PrefixCfg where
  addr : Ipv6
  prefixlen : Nat
  onlink : Bool
  autonomous : Bool
  valid : Nat
  preferred : Nat
deriving DecidableEq, Repr

/-- Mirror of `config::Pref64`. -/
structure Pref64Cfg where
  lifetime : Nat
  pfx : Ipv6
  prefixlen : Nat
deriving DecidableEq, Repr

/-- Mirror of `config::Interface` (every field `build_announcement_pure`
reads; durations in seconds). -/
structure Interface where
  name : String := ""
  hoplimit : Nat := 0
  managed : Bool := false
  other : Bool := false
  lifetime : ConfigValue Nat := .notSpecified
  reachable : Nat := 0
  retrans : Nat := 0
  mtu : ConfigValue Nat := .notSpecified
  prefixes : List PrefixCfg := []
  rdnss_lifetime : ConfigValue Nat := .notSpecified
  rdnss : ConfigValue (List Ipv6) := .notSpecified
  dnssl_lifetime : ConfigValue Nat := .notSpecified
  dnssl : ConfigValue (List String) := .notSpecified
  captive_portal : ConfigValue String := .notSpecified
  pref64 : Option Pref64Cfg := none
deriving DecidableEq, Repr

/-- The slice of the global `Config` that `build_announcement_pure`
reads. -/
structure Config where
  dns_servers : List IpAddr := []
  dns_search : List String := []
  captive_portal : Option String := none
deriving DecidableEq, Repr

/-- Mirror of `icmppkt::AdvPrefix`. -/
structure AdvPrefixOpt where
  prefixlen : Nat
  onlink : Bool
  autonomous : Bool
  valid : Nat
  preferred : Nat
  pfx : Ipv6
deriving DecidableEq, Repr

/-- Mirror of `icmppkt::NDOptionValue` (the variants emitted by
`build_announcement_pure`). -/
inductive NDOptionValue where
  | sourceLLAddr (addr : List Nat)
  | mtu (v : Nat)
  | prefixInformation (p : AdvPrefixOpt)
  | recursiveDnsServers (lifetime : Nat) (servers : List Ipv6)
  | dnsSearchList (lifetime : Nat) (domains : List String)
  | pref64 (lifetime : Nat) (prefixlen : Nat) (pfx : Ipv6)
  | captivePortal (url : String)
deriving DecidableEq, Repr

/-- Mirror of `icmppkt::RtrAdvertisement`; options are kept in emission
order. -/
structure RtrAdvertisement where
  hop_limit : Nat
  flag_managed : Bool
  flag_other : Bool
  lifetime : Nat
  reachable : Nat
  retrans : Nat
  options : List NDOptionValue
deriving DecidableEq, Repr

/-- `DEFAULT_MAX_RTR_ADV_INTERVAL` (600 seconds, RFC 4861 section
6.2.1). -/
def DEFAULT_MAX_RTR_ADV_INTERVAL : Nat := 600

/-- The RDNSS fallback list: IPv6 entries of the global `dns_servers`,
with `::` entries replaced by `self6` (the `filter_map` of
`build_announcement_pure`). -/
def rdnssFallback (config : Config) (self6 : Ipv6) : List Ipv6 :=
  config.dns_servers.filterMap (fun ip =>
    match ip with
    | .v6 ip6 => if ip6 = Ipv6.unspecified then some self6 else some ip6
    | _ => none)

/-- Modelled from the spec (section 4.2 rule 7): the captive-portal option
source — the interface value wins over the global one and `DontSet`
suppresses the option (the `ConfigValue::as_ref().or(..)` plumbing lives
in the config module, which is not among the given sources; the
repository tests `test_default_values` and `test_dontset_values` pin this
behaviour). -/
def captivePortalChoice (intf : Interface) (config : Config) : Option String :=
  match intf.captive_portal with
  | .value v => some v
  | .notSpecified => config.captive_portal
  | .dontSet => none

/-- Mirror of `RaAdvService::build_announcement_pure`: assemble the ND
options in source order and fill in the advertisement header. -/
def build_announcement_pure (config : Config) (intf : Interface)
    (ll : Option (List Nat)) (mtu : Option Nat) (self6 : Ipv6)
    (lifetime : Nat) : RtrAdvertisement :=
  let options : List NDOptionValue := []
  let options := options ++ (match ll with
    | some lladdr => [NDOptionValue.sourceLLAddr lladdr]
    | none => [])
  let options := options ++ (match mtu with
    | some m => [NDOptionValue.mtu m]
    | none => [])
  let options := options ++ intf.prefixes.map (fun p =>
    NDOptionValue.prefixInformation
      { prefixlen := p.prefixlen
        onlink := p.onlink
        autonomous := p.autonomous
        valid := p.valid
        preferred := p.preferred
        pfx := p.addr })
  let options := options ++
    (match intf.rdnss.unwrap_or (rdnssFallback config self6) with
     | some v =>
         [NDOptionValue.recursiveDnsServers
           (intf.rdnss_lifetime.always_unwrap_or (3 * DEFAULT_MAX_RTR_ADV_INTERVAL))
           v]
     | none => [])
  let options := options ++
    (match intf.dnssl.unwrap_or config.dns_search with
     | some v =>
         [NDOptionValue.dnsSearchList
           (intf.dnssl_lifetime.always_unwrap_or (3 * DEFAULT_MAX_RTR_ADV_INTERVAL))
           v]
     | none => [])
  let options := options ++ (match intf.pref64 with
    | some p => [NDOptionValue.pref64 p.lifetime p.prefixlen p.pfx]
    | none => [])
  let options := options ++ (match captivePortalChoice intf config with
    | some url => [NDOptionValue.captivePortal url]
    | none => [])
  { hop_limit := intf.hoplimit
    flag_managed := intf.managed
    flag_other := intf.other
    lifetime := intf.lifetime.always_unwrap_or lifetime
    reachable := intf.reachable
    retrans := intf.retrans
    options := options }

/-- The address lists of the RDNSS options of an advertisement. -/
def rdnssLists (a : RtrAdvertisement) : List (List Ipv6) :=
  a.options.filterMap (fun o =>
    match o with
    | .recursiveDnsServers _ servers => some servers
    | _ => none)

/-- The domain lists of the DNSSL options of an advertisement. -/
def dnsslLists (a : RtrAdvertisement) : List (List String) :=
  a.options.filterMap (fun o =>
    match o with
    | .dnsSearchList _ domains => some domains
    | _ => none)

/-! ## Sample concrete inputs used by witnesses -/

/-- A minimal parsed query used to instantiate hypotheses at concrete
inputs. -/
def sampleQuery : DNSPkt :=
  { qid := 1, rd := false, tc := false, aa := false, qr := false
    opcode := 0, cd := false, ad := false, ra := false, rcode := 0
    bufsize := 512, edns_ver := none, edns_do := false
    question := [7], answer := [], nameserver := [], additional := []
    edns := none }

/-- A sample local address. -/
def sampleLocalIp : IpAddr := .v4 [192, 0, 2, 1]

/-- A sample remote address. -/
def sampleRemoteIp : IpAddr := .v4 [198, 51, 100, 7]

/-- A minimal received message. -/
def sampleMsg : DnsMessage :=
  { in_query := sampleQuery, in_size := 30
    local_ip := sampleLocalIp, remote_ip := sampleRemoteIp
    protocol := .udp }

/-- A query carrying a DNS COOKIE option with a client half but no server
half. -/
def cookieOnlyQuery : DNSPkt :=
  { sampleQuery with
      edns := some { cookie := some ([1, 2, 3, 4, 5, 6, 7, 8], none) } }

/-- A message whose query has a client cookie but no server cookie
half. -/
def cookieOnlyMsg : DnsMessage :=
  { sampleMsg with in_query := cookieOnlyQuery }

/-- A constant stand-in MAC returning 32 zero octets, used only to
evaluate cookie code on concrete inputs. -/
def hmacZero : HmacFn := fun _ _ => List.replicate 32 0

/-! ## C3: rate-limiter cost function -/

/-- C3 counterexample: the claim asserts the cost saturates at zero for
every reply smaller than or equal to the query, but for a 50-octet query
and a 50-octet reply the code charges `max(0, 2*50 - 50) = 50`, not 0. -/
theorem c3_cost_claim_counterexample : 50 ≤ 50 ∧ costCharged 50 50 ≠ 0 := by
  decide

/-- C3 amended: for every query of `q` octets and serialized reply of `r`
octets the charged cost is the amplification-bias function
`max(0, 2r - q)`; it saturates at zero exactly when `2r ≤ q` (a reply of
at most half the query size), not for every reply of at most the query
size. -/
theorem c3_cost_amended (q r : Nat) :
    (costCharged q r : Int) = max 0 (2 * (r : Int) - (q : Int)) := by
  unfold costCharged
  rcases Nat.le_total (2 * r) q with h | h
  · rw [max_eq_left (by omega)]
    omega
  · rw [max_eq_right (by omega)]
    omega

/-! ## C5: success reply synthesis -/

/-- C5: the synthesized success reply copies the QID and question of the
query, maps a present EDNS version to 0, forces `rd = false`, `qr = true`
and the QUERY opcode, copies `tc`, `aa`, `cd`, `ad`, `ra`, `rcode`,
answer and additional from the upstream reply, sets `bufsize = 4096`, and
fills the nameserver section with a copy of the upstream ANSWER
section. -/
theorem c5_create_in_reply (ipText : IpAddr → List Nat) (hmac : HmacFn)
    (msg : DnsMessage) (outr : DNSPkt) :
    (create_in_reply ipText hmac msg outr).qid = msg.in_query.qid
    ∧ (create_in_reply ipText hmac msg outr).question = msg.in_query.question
    ∧ (create_in_reply ipText hmac msg outr).edns_ver
        = msg.in_query.edns_ver.map (fun _ => 0)
    ∧ (create_in_reply ipText hmac msg outr).rd = false
    ∧ (create_in_reply ipText hmac msg outr).qr = true
    ∧ (create_in_reply ipText hmac msg outr).opcode = OPCODE_QUERY
    ∧ (create_in_reply ipText hmac msg outr).tc = outr.tc
    ∧ (create_in_reply ipText hmac msg outr).aa = outr.aa
    ∧ (create_in_reply ipText hmac msg outr).cd = outr.cd
    ∧ (create_in_reply ipText hmac msg outr).ad = outr.ad
    ∧ (create_in_reply ipText hmac msg outr).ra = outr.ra
    ∧ (create_in_reply ipText hmac msg outr).rcode = outr.rcode
    ∧ (create_in_reply ipText hmac msg outr).answer = outr.answer
    ∧ (create_in_reply ipText hmac msg outr).additional = outr.additional
    ∧ (create_in_reply ipText hmac msg outr).bufsize = 4096
    ∧ (create_in_reply ipText hmac msg outr).nameserver = outr.answer :=
  ⟨rfl, rfl, rfl, rfl, rfl, rfl, rfl, rfl, rfl, rfl, rfl, rfl, rfl, rfl,
    rfl, rfl⟩

/-! ## C1: when the limiter is consulted -/

/-- C1: across both transports, the rate limiter is consulted iff the
reply travels over UDP, its rcode is REFUSED, and the query cookie does
not validate as Good under the server key; moreover whenever the limiter
is not consulted the reply is sent and the limiter state is untouched (so
validated-cookie queries and TCP replies are never rate-limited). -/
theorem c1_ratelimit_gate (hashIp : Nat → IpAddr → Nat) (hmac : HmacFn)
    (msg : DnsMessage) (in_reply : DNSPkt) (in_reply_serialised : List Nat)
    (st : Nat → Nat) :
    ((replyGate hashIp hmac msg in_reply in_reply_serialised st).2.2 = true ↔
      (msg.protocol = .udp ∧ in_reply.rcode = REFUSED
        ∧ msg.validate_cookie_key hmac COOKIE_KEY ≠ .good))
    ∧ ((replyGate hashIp hmac msg in_reply in_reply_serialised st).2.2 = false →
        (replyGate hashIp hmac msg in_reply in_reply_serialised st).1 = true
        ∧ (replyGate hashIp hmac msg in_reply in_reply_serialised st).2.1 = st) := by
  cases hp : msg.protocol with
  | udp =>
      constructor
      · simp only [replyGate, should_ratelimit]
        split_ifs with h1 h2 <;> simp_all
      · simp only [replyGate, should_ratelimit]
        split_ifs with h1 h2 <;> simp_all
  | tcp => simp [replyGate, hp]

/-! ## C2: two-bucket probe of the rate limiter -/

/-- Unfolding of `rlCheck` in terms of the bucket indices as the spec
words them. -/
theorem rlCheck_eq (st : Nat → Nat) (h1 h2 cost : Nat) :
    rlCheck st h1 h2 cost =
      if cost ≤ st (specBucket1 h1) then
        (true, updateAt st (specBucket1 h1) (st (specBucket1 h1) - cost))
      else if cost ≤ st (specBucket2 h1 h2) then
        (true, updateAt st (specBucket2 h1 h2) (st (specBucket2 h1 h2) - cost))
      else (false, st) := by
  simp only [rlCheck, specBucket1, specBucket2]

/-- C2: the probe consults the buckets `hash(SEED1, ip) mod 256` and
`hash(SEED2, ip) mod 255` (with the collision fixup to bucket 255), which
are always distinct; the request passes iff either bucket holds at least
`cost` tokens at decision time, the permitting bucket is depleted by
`cost`, and every other bucket is untouched; and the seeded wiring of
`IpRateLimiter::check` is exactly this probe. -/
theorem c2_bucket_probe (st : Nat → Nat) (h1 h2 cost : Nat) :
    specBucket1 h1 ≠ specBucket2 h1 h2
    ∧ ((rlCheck st h1 h2 cost).1 = true ↔
        (cost ≤ st (specBucket1 h1) ∨ cost ≤ st (specBucket2 h1 h2)))
    ∧ (cost ≤ st (specBucket1 h1) →
        (rlCheck st h1 h2 cost).2 (specBucket1 h1)
            = st (specBucket1 h1) - cost
        ∧ ∀ i, i ≠ specBucket1 h1 → (rlCheck st h1 h2 cost).2 i = st i)
    ∧ (¬ cost ≤ st (specBucket1 h1) → cost ≤ st (specBucket2 h1 h2) →
        (rlCheck st h1 h2 cost).2 (specBucket2 h1 h2)
            = st (specBucket2 h1 h2) - cost
        ∧ ∀ i, i ≠ specBucket2 h1 h2 → (rlCheck st h1 h2 cost).2 i = st i)
    ∧ (¬ cost ≤ st (specBucket1 h1) → ¬ cost ≤ st (specBucket2 h1 h2) →
        (rlCheck st h1 h2 cost).2 = st)
    ∧ (∀ (hashIp : Nat → IpAddr → Nat) (ip : IpAddr),
        ipRateLimiterCheck hashIp st ip cost
          = rlCheck st (hashIp SEED1 ip) (hashIp SEED2 ip) cost) := by
  have hb : specBucket1 h1 ≠ specBucket2 h1 h2 := by
    have hm : h2 % 255 < 255 := Nat.mod_lt _ (by norm_num)
    have hm1 : h1 % 256 < 256 := Nat.mod_lt _ (by norm_num)
    simp only [specBucket1, specBucket2]
    split_ifs with h <;> omega
  refine ⟨hb, ?_, ?_, ?_, ?_, fun _ _ => rfl⟩
  · rw [rlCheck_eq]
    split_ifs with ha hc <;> simp_all
  · intro ha
    rw [rlCheck_eq, if_pos ha]
    exact ⟨by simp [updateAt], fun i hi => by simp [updateAt, hi]⟩
  · intro ha hc
    rw [rlCheck_eq, if_neg ha, if_pos hc]
    exact ⟨by simp [updateAt], fun i hi => by simp [updateAt, hi]⟩
  · intro ha hc
    rw [rlCheck_eq, if_neg ha, if_neg hc]

/-- C2 witness: a state with ten tokens in every bucket admits a request
of cost three on the first bucket (here `h1 = 0`, `h2 = 1`), and the
first bucket ends with seven tokens. -/
theorem c2_bucket_probe_witness :
    3 ≤ (fun _ : Nat => 10) (specBucket1 0)
    ∧ (rlCheck (fun _ => 10) 0 1 3).1 = true
    ∧ (rlCheck (fun _ => 10) 0 1 3).2 (specBucket1 0) = 7 := by
  have h := c2_bucket_probe (fun _ => 10) 0 1 3
  refine ⟨by decide, h.2.1.mpr (Or.inl (by decide)), ?_⟩
  have := (h.2.2.1 (by decide)).1
  simpa using this

/-! ## C6: error reply table and unreachable branches -/

/-- C6: every reply-owed error is mapped to the rcode and Extended DNS
Error code of the spec table (REFUSED with PROHIBITED for ACL refusals
and denials, REFUSED with NOT_AUTHORITATIVE, SERVFAIL with
NO_REACHABLE_AUTHORITY for upstream timeouts, SERVFAIL with NETWORK_ERROR
for upstream send, receive, connect and parse failures, SERVFAIL with
OTHER for internal errors), while the listen, receive and parse branches
of `create_in_error` synthesize no reply at all — they are only reachable
through error values outside the handler surface `QueryError`. -/
theorem c6_error_reply_table (msg : DnsMessage) :
    (∀ e : QueryError,
        (create_in_error msg e.toError).map (fun r => (r.rcode, edeCodeOf r))
          = some (specErrorRcode e, some (specErrorEde e)))
    ∧ (∀ s, create_in_error msg (.listenError s) = none)
    ∧ (∀ s, create_in_error msg (.recvError s) = none)
    ∧ (∀ s, create_in_error msg (.parseError s) = none) := by
  refine ⟨?_, fun _ => rfl, fun _ => rfl, fun _ => rfl⟩
  intro e
  rcases e with w | w | _ | oe
  · rfl
  · rfl
  · rfl
  · rcases oe <;> rfl

/-! ## C10: shape of every error reply -/

/-- C10: every synthesized error reply has empty answer, nameserver and
additional sections, `tc = false`, `aa = false`, `ra = true`, and its
EDNS carries only the Extended DNS Error option — never NSID and never a
DNS COOKIE. -/
theorem c10_error_reply_shape (msg : DnsMessage) (err : DnsError)
    (rep : DNSPkt) (h : create_in_error msg err = some rep) :
    rep.answer = [] ∧ rep.nameserver = [] ∧ rep.additional = []
    ∧ rep.tc = false ∧ rep.aa = false ∧ rep.ra = true
    ∧ ∃ ed, rep.edns = some ed ∧ ed.nsid = none ∧ ed.cookie = none
        ∧ ed.extendedDnsError.isSome = true := by
  rcases err with s | s | s | w | w | _ | oe
  · exact absurd h (by simp [create_in_error])
  · exact absurd h (by simp [create_in_error])
  · exact absurd h (by simp [create_in_error])
  · simp only [create_in_error, Option.some_inj] at h
    subst h
    exact ⟨rfl, rfl, rfl, rfl, rfl, rfl, _, rfl, rfl, rfl, rfl⟩
  · simp only [create_in_error, Option.some_inj] at h
    subst h
    exact ⟨rfl, rfl, rfl, rfl, rfl, rfl, _, rfl, rfl, rfl, rfl⟩
  · simp only [create_in_error, Option.some_inj] at h
    subst h
    exact ⟨rfl, rfl, rfl, rfl, rfl, rfl, _, rfl, rfl, rfl, rfl⟩
  · rcases oe <;>
      (simp only [create_in_error, Option.some_inj] at h
       subst h
       exact ⟨rfl, rfl, rfl, rfl, rfl, rfl, _, rfl, rfl, rfl, rfl⟩)

/-- C10 witness: the Not-Authoritative reply to the sample message has
the claimed shape. -/
theorem c10_error_reply_shape_witness :
    ((create_in_error sampleMsg .notAuthoritative).get rfl).answer = []
    ∧ ((create_in_error sampleMsg .notAuthoritative).get rfl).nameserver = []
    ∧ ((create_in_error sampleMsg .notAuthoritative).get rfl).additional = []
    ∧ ((create_in_error sampleMsg .notAuthoritative).get rfl).tc = false
    ∧ ((create_in_error sampleMsg .notAuthoritative).get rfl).aa = false
    ∧ ((create_in_error sampleMsg .notAuthoritative).get rfl).ra = true
    ∧ ∃ ed, ((create_in_error sampleMsg .notAuthoritative).get rfl).edns = some ed
        ∧ ed.nsid = none ∧ ed.cookie = none
        ∧ ed.extendedDnsError.isSome = true :=
  c10_error_reply_shape sampleMsg .notAuthoritative _
    (Option.some_get (show (create_in_error sampleMsg .notAuthoritative).isSome
        = true from rfl)).symm

/-! ## C9: UDP in_size bound -/

/-- C9: every `DnsMessage` built on the UDP path has `in_size` equal to
the length of the received buffer, which the 4096-octet receive caps at
4096 — longer datagrams are never observed in full. -/
theorem c9_udp_in_size_bound (parseDns : List Nat → Except String DNSPkt)
    (datagram : List Nat) (local_ip remote_ip : IpAddr) (msg : DnsMessage)
    (h : udpBuildDnsMessage parseDns datagram local_ip remote_ip = .ok msg) :
    msg.in_size = (udpRecvBuffer datagram).length ∧ msg.in_size ≤ 4096 := by
  unfold udpBuildDnsMessage build_dns_message at h
  rcases hp : parseDns (udpRecvBuffer datagram) with e | q
  · rw [hp] at h
    exact absurd h (by simp)
  · rw [hp] at h
    simp only [Except.ok.injEq] at h
    subst h
    refine ⟨rfl, ?_⟩
    simp only [udpRecvBuffer, UDP_RECV_SIZE, List.length_take]
    omega

/-- C9 witness: a three-octet datagram under a parser that accepts
everything yields a message whose `in_size` is three. -/
theorem c9_udp_in_size_bound_witness :
    ({ in_query := sampleQuery, in_size := 3, local_ip := sampleLocalIp
       remote_ip := sampleRemoteIp, protocol := .udp } : DnsMessage).in_size
        = (udpRecvBuffer [0, 1, 2]).length
    ∧ ({ in_query := sampleQuery, in_size := 3, local_ip := sampleLocalIp
         remote_ip := sampleRemoteIp, protocol := .udp } : DnsMessage).in_size
        ≤ 4096 :=
  c9_udp_in_size_bound (fun _ => .ok sampleQuery) [0, 1, 2]
    sampleLocalIp sampleRemoteIp _ rfl

/-! ## C4: cookie validation -/

/-- C4 counterexample: a query that carries a client cookie without a
server half makes `validate_cookie` return Missing even though a client
cookie is present, refuting the claim that Missing is returned iff no
client cookie is present. -/
theorem c4_missing_claim_counterexample :
    DnsMessage.validate_cookie cookieOnlyMsg hmacZero COOKIE_KEY COOKIE_KEY
        = .missing
    ∧ DnsMessage.cookieOf cookieOnlyMsg ≠ none := by
  exact ⟨rfl, by decide⟩

/-- C4 amended: `validate_cookie(new, old)` returns Good iff the query
carries a client cookie with a server half equal to the first 32 octets
of the HMAC under the new key, or under the old key when the new key
yields Bad; it returns Missing iff the query carries no client cookie
with a server half (no cookie at all, or a client-only cookie); a Missing
result under the new key is never upgraded by the old key; and the MAC
input uses the raw local and remote IP octets. -/
theorem c4_cookie_validation_amended (hmac : HmacFn)
    (hlen : ∀ k d, (hmac k d).length = 32)
    (msg : DnsMessage) (key oldkey : List Nat) :
    (msg.validate_cookie hmac key oldkey = .good ↔
      ∃ c s, msg.cookieOf = some (c, some s)
        ∧ (s = (msg.calculate_cookie hmac c key).take 32
           ∨ s = (msg.calculate_cookie hmac c oldkey).take 32))
    ∧ (msg.validate_cookie hmac key oldkey = .missing ↔
        ∀ c s, msg.cookieOf ≠ some (c, some s))
    ∧ (msg.validate_cookie_key hmac key = .missing →
        msg.validate_cookie hmac key oldkey = .missing) := by
  have htake : ∀ (c k : List Nat),
      (msg.calculate_cookie hmac c k).take 32 = msg.calculate_cookie hmac c k :=
    fun c k => List.take_of_length_le (le_of_eq (hlen _ _))
  rcases hc : msg.cookieOf with _ | ⟨c, _ | s⟩
  · have hvk : msg.validate_cookie_key hmac key = .missing := by
      unfold DnsMessage.validate_cookie_key; rw [hc]
    have hv : msg.validate_cookie hmac key oldkey = .missing := by
      unfold DnsMessage.validate_cookie; rw [hvk]
    refine ⟨?_, ?_, fun _ => hv⟩
    · rw [hv]
      constructor
      · intro h; exact nomatch h
      · rintro ⟨c', s', hcs, -⟩
        exact nomatch hcs
    · rw [hv]
      constructor
      · intro _ c' s' h
        exact nomatch h
      · intro _; rfl
  · have hvk : msg.validate_cookie_key hmac key = .missing := by
      unfold DnsMessage.validate_cookie_key; rw [hc]
    have hv : msg.validate_cookie hmac key oldkey = .missing := by
      unfold DnsMessage.validate_cookie; rw [hvk]
    refine ⟨?_, ?_, fun _ => hv⟩
    · rw [hv]
      constructor
      · intro h; exact nomatch h
      · rintro ⟨c', s', hcs, -⟩
        simp at hcs
    · rw [hv]
      constructor
      · intro _ c' s' h
        simp at h
      · intro _; rfl
  · have hvk_eq : msg.validate_cookie_key hmac key
        = (if msg.calculate_cookie hmac c key = s then .good else .bad) := by
      unfold DnsMessage.validate_cookie_key; rw [hc]
    have hvko_eq : msg.validate_cookie_key hmac oldkey
        = (if msg.calculate_cookie hmac c oldkey = s then .good else .bad) := by
      unfold DnsMessage.validate_cookie_key; rw [hc]
    by_cases hnew : msg.calculate_cookie hmac c key = s
    · have hv : msg.validate_cookie hmac key oldkey = .good := by
        unfold DnsMessage.validate_cookie; rw [hvk_eq, if_pos hnew]
      refine ⟨?_, ?_, ?_⟩
      · rw [hv]
        constructor
        · intro _
          exact ⟨c, s, rfl, Or.inl (by rw [htake]; exact hnew.symm)⟩
        · intro _; rfl
      · rw [hv]
        constructor
        · intro h; exact nomatch h
        · intro hall; exact (hall c s rfl).elim
      · intro hm
        rw [hvk_eq, if_pos hnew] at hm
        exact nomatch hm
    · by_cases hold : msg.calculate_cookie hmac c oldkey = s
      · have hv : msg.validate_cookie hmac key oldkey = .good := by
          unfold DnsMessage.validate_cookie
          rw [hvk_eq, if_neg hnew]
          show msg.validate_cookie_key hmac oldkey = .good
          rw [hvko_eq, if_pos hold]
        refine ⟨?_, ?_, ?_⟩
        · rw [hv]
          constructor
          · intro _
            exact ⟨c, s, rfl, Or.inr (by rw [htake]; exact hold.symm)⟩
          · intro _; rfl
        · rw [hv]
          constructor
          · intro h; exact nomatch h
          · intro hall; exact (hall c s rfl).elim
        · intro hm
          rw [hvk_eq, if_neg hnew] at hm
          exact nomatch hm
      · have hv : msg.validate_cookie hmac key oldkey = .bad := by
          unfold DnsMessage.validate_cookie
          rw [hvk_eq, if_neg hnew]
          show msg.validate_cookie_key hmac oldkey = .bad
          rw [hvko_eq, if_neg hold]
        refine ⟨?_, ?_, ?_⟩
        · rw [hv]
          constructor
          · intro h; exact nomatch h
          · rintro ⟨c', s', hcs, hor⟩
            simp only [Option.some_inj, Prod.mk.injEq] at hcs
            obtain ⟨hc1, hc2⟩ := hcs
            subst hc1
            subst hc2
            rcases hor with h1 | h1
            · rw [htake] at h1; exact (hnew h1.symm).elim
            · rw [htake] at h1; exact (hold h1.symm).elim
        · rw [hv]
          constructor
          · intro h; exact nomatch h
          · intro hall; exact (hall c s rfl).elim
        · intro hm
          rw [hvk_eq, if_neg hnew] at hm
          exact nomatch hm

/-- C4 amended witness: the client-only-cookie message validates as
Missing (the right-hand side of the Missing iff holds for it). -/
theorem c4_cookie_validation_amended_witness :
    DnsMessage.validate_cookie cookieOnlyMsg hmacZero COOKIE_KEY COOKIE_KEY
      = .missing :=
  ((c4_cookie_validation_amended hmacZero (fun _ _ => rfl) cookieOnlyMsg
      COOKIE_KEY COOKIE_KEY).2.1).mpr
    (by
      intro c s h
      have hco : DnsMessage.cookieOf cookieOnlyMsg
          = some ([1, 2, 3, 4, 5, 6, 7, 8], none) := rfl
      rw [hco] at h
      simp at h)

/-! ## C7: RDNSS and DNSSL ConfigValue semantics -/

/-- Filtering with a constantly-`none` function yields the empty list. -/
theorem filterMap_const_none {α β : Type} (l : List α) :
    l.filterMap (fun _ => (none : Option β)) = [] := by
  induction l with
  | nil => rfl
  | cons a t ih => simp [ih]

/-- The RDNSS option lists of a built announcement are exactly the
resolved `unwrap_or` value of the interface rdnss setting. -/
theorem rdnssLists_build (config : Config) (intf : Interface)
    (ll : Option (List Nat)) (mtu : Option Nat) (self6 : Ipv6)
    (lifetime : Nat) :
    rdnssLists (build_announcement_pure config intf ll mtu self6 lifetime)
      = (intf.rdnss.unwrap_or (rdnssFallback config self6)).toList := by
  rcases ll with _ | l <;> rcases mtu with _ | m <;>
    rcases h64 : intf.pref64 with _ | p <;>
    rcases hcp : captivePortalChoice intf config with _ | u <;>
    rcases hr : intf.rdnss.unwrap_or (rdnssFallback config self6) with _ | v <;>
    rcases hd : intf.dnssl.unwrap_or config.dns_search with _ | w <;>
    simp [build_announcement_pure, rdnssLists, hr, hd, h64, hcp,
      List.filterMap_append, filterMap_const_none]

/-- The DNSSL option lists of a built announcement are exactly the
resolved `unwrap_or` value of the interface dnssl setting. -/
theorem dnsslLists_build (config : Config) (intf : Interface)
    (ll : Option (List Nat)) (mtu : Option Nat) (self6 : Ipv6)
    (lifetime : Nat) :
    dnsslLists (build_announcement_pure config intf ll mtu self6 lifetime)
      = (intf.dnssl.unwrap_or config.dns_search).toList := by
  rcases ll with _ | l <;> rcases mtu with _ | m <;>
    rcases h64 : intf.pref64 with _ | p <;>
    rcases hcp : captivePortalChoice intf config with _ | u <;>
    rcases hr : intf.rdnss.unwrap_or (rdnssFallback config self6) with _ | v <;>
    rcases hd : intf.dnssl.unwrap_or config.dns_search with _ | w <;>
    simp [build_announcement_pure, dnsslLists, hr, hd, h64, hcp,
      List.filterMap_append, filterMap_const_none]

/-- C7: in `build_announcement_pure`, a `DontSet` rdnss emits no RDNSS
option, a `Value v` rdnss emits exactly one RDNSS option carrying `v`,
and a `NotSpecified` rdnss emits one RDNSS option carrying the global
fallback (IPv6 entries of `dns_servers` with `::` replaced by `self6`)
iff that fallback is non-empty; DNSSL mirrors the rule with the global
`dns_search`. -/
theorem c7_rdnss_dnssl_configvalue (config : Config) (intf : Interface)
    (ll : Option (List Nat)) (mtu : Option Nat) (self6 : Ipv6)
    (lifetime : Nat) :
    (intf.rdnss = .dontSet →
      rdnssLists (build_announcement_pure config intf ll mtu self6 lifetime)
        = [])
    ∧ (∀ v, intf.rdnss = .value v →
      rdnssLists (build_announcement_pure config intf ll mtu self6 lifetime)
        = [v])
    ∧ (intf.rdnss = .notSpecified →
        (rdnssFallback config self6 ≠ [] →
          rdnssLists (build_announcement_pure config intf ll mtu self6 lifetime)
            = [rdnssFallback config self6])
        ∧ (rdnssFallback config self6 = [] →
          rdnssLists (build_announcement_pure config intf ll mtu self6 lifetime)
            = []))
    ∧ (intf.dnssl = .dontSet →
      dnsslLists (build_announcement_pure config intf ll mtu self6 lifetime)
        = [])
    ∧ (∀ v, intf.dnssl = .value v →
      dnsslLists (build_announcement_pure config intf ll mtu self6 lifetime)
        = [v])
    ∧ (intf.dnssl = .notSpecified →
        (config.dns_search ≠ [] →
          dnsslLists (build_announcement_pure config intf ll mtu self6 lifetime)
            = [config.dns_search])
        ∧ (config.dns_search = [] →
          dnsslLists (build_announcement_pure config intf ll mtu self6 lifetime)
            = [])) := by
  rw [rdnssLists_build, dnsslLists_build]
  refine ⟨?_, ?_, ?_, ?_, ?_, ?_⟩
  · intro h
    rw [h]
    rfl
  · intro v h
    rw [h]
    rfl
  · intro h
    rw [h]
    constructor
    · intro hne
      simp [ConfigValue.unwrap_or, List.isEmpty_iff, hne]
    · intro he
      simp [ConfigValue.unwrap_or, List.isEmpty_iff, he]
  · intro h
    rw [h]
    rfl
  · intro v h
    rw [h]
    rfl
  · intro h
    rw [h]
    constructor
    · intro hne
      simp [ConfigValue.unwrap_or, List.isEmpty_iff, hne]
    · intro he
      simp [ConfigValue.unwrap_or, List.isEmpty_iff, he]

/-- The global config of the repository test `test_default_values`: an
IPv4 and an IPv6 nameserver and one search domain. -/
def wConfig : Config :=
  { dns_servers := [.v4 [192, 0, 2, 53],
                    .v6 ⟨0x2001, 0xdb8, 0, 0, 0, 0, 0, 0x53⟩]
    dns_search := ["example.com"]
    captive_portal := some "example.com" }

/-- C7 witness: with everything `NotSpecified` on the interface and the
sample globals, exactly one RDNSS option is emitted carrying only the
IPv6 nameserver, and one DNSSL option carrying the search list. -/
theorem c7_rdnss_dnssl_configvalue_witness :
    rdnssFallback wConfig Ipv6.unspecified ≠ []
    ∧ rdnssLists (build_announcement_pure wConfig {} none none
        Ipv6.unspecified 0) = [rdnssFallback wConfig Ipv6.unspecified]
    ∧ dnsslLists (build_announcement_pure wConfig {} none none
        Ipv6.unspecified 0) = [wConfig.dns_search] :=
  ⟨by decide,
   ((c7_rdnss_dnssl_configvalue wConfig {} none none Ipv6.unspecified 0).2.2.1
      rfl).1 (by decide),
   ((c7_rdnss_dnssl_configvalue wConfig {} none none Ipv6.unspecified 0).2.2.2.2.2
      rfl).1 (by simp [wConfig])⟩

/-! ## C8: scope ordering and order-independence of the maximum -/

theorem cmpN_eq {a b : Nat} : cmpN a b = .eq ↔ a = b := by
  unfold cmpN
  split_ifs with h1 h2 <;> simp <;> omega

theorem cmpN_lt {a b : Nat} : cmpN a b = .lt ↔ a < b := by
  unfold cmpN
  split_ifs with h1 h2 <;> simp <;> omega

theorem cmpN_gt {a b : Nat} : cmpN a b = .gt ↔ b < a := by
  unfold cmpN
  split_ifs with h1 h2 <;> simp <;> omega

theorem cmpN_swap (a b : Nat) : (cmpN a b).swap = cmpN b a := by
  rcases Nat.lt_trichotomy a b with h | h | h
  · simp [cmpN, h, Nat.lt_asymm h, Ordering.swap]
  · subst h
    simp [cmpN, Ordering.swap]
  · simp [cmpN, h, Nat.lt_asymm h, Ordering.swap]

/-- Lexicographic three-way comparison on lists of naturals, the common
shape of the segment and scope-position comparisons. -/
def lexCmp : List Nat → List Nat → Ordering
  | [], [] => .eq
  | [], _ :: _ => .lt
  | _ :: _, [] => .gt
  | a :: as, b :: bs => (cmpN a b).then (lexCmp as bs)

theorem lexCmp_eq : ∀ {l₁ l₂ : List Nat}, lexCmp l₁ l₂ = .eq ↔ l₁ = l₂ := by
  intro l₁
  induction l₁ with
  | nil => intro l₂; cases l₂ <;> simp [lexCmp]
  | cons a t ih =>
      intro l₂
      cases l₂ with
      | nil => simp [lexCmp]
      | cons b u => simp [lexCmp, Ordering.then_eq_eq, cmpN_eq, ih]

theorem lexCmp_swap : ∀ (l₁ l₂ : List Nat), (lexCmp l₁ l₂).swap = lexCmp l₂ l₁ := by
  intro l₁
  induction l₁ with
  | nil => intro l₂; cases l₂ <;> rfl
  | cons a t ih =>
      intro l₂
      cases l₂ with
      | nil => rfl
      | cons b u => simp [lexCmp, Ordering.swap_then, cmpN_swap, ih]

theorem lexCmp_lt_trans :
    ∀ {l₁ l₂ l₃ : List Nat}, lexCmp l₁ l₂ = .lt → lexCmp l₂ l₃ = .lt →
      lexCmp l₁ l₃ = .lt := by
  intro l₁
  induction l₁ with
  | nil =>
      intro l₂ l₃ h1 h2
      cases l₂ with
      | nil => exact nomatch h1
      | cons b u =>
          cases l₃ with
          | nil => exact nomatch h2
          | cons c v => rfl
  | cons a t ih =>
      intro l₂ l₃ h1 h2
      cases l₂ with
      | nil => exact nomatch h1
      | cons b u =>
          cases l₃ with
          | nil => exact nomatch h2
          | cons c v =>
              rw [lexCmp, Ordering.then_eq_lt] at h1 h2 ⊢
              rcases h1 with h1 | ⟨h1e, h1r⟩
              · rcases h2 with h2 | ⟨h2e, h2r⟩
                · exact Or.inl (cmpN_lt.mpr (Nat.lt_trans (cmpN_lt.mp h1) (cmpN_lt.mp h2)))
                · exact Or.inl (cmpN_lt.mpr (cmpN_eq.mp h2e ▸ cmpN_lt.mp h1))
              · rcases h2 with h2 | ⟨h2e, h2r⟩
                · exact Or.inl (cmpN_lt.mpr ((cmpN_eq.mp h1e) ▸ cmpN_lt.mp h2))
                · exact Or.inr ⟨cmpN_eq.mpr ((cmpN_eq.mp h1e).trans (cmpN_eq.mp h2e)),
                    ih h1r h2r⟩

/-- The eight segments of an address as a list. -/
def segList (x : Ipv6) : List Nat :=
  [x.s0, x.s1, x.s2, x.s3, x.s4, x.s5, x.s6, x.s7]

/-- The sort key of `ScopeSorter::cmp`: scope position first, then the
segments. -/
def segKey (x : Ipv6) : List Nat :=
  scopePos (v6_scope x) :: segList x

theorem then_eq (o : Ordering) : o.then .eq = o := by
  cases o <;> rfl

theorem then_ite (a b : Ordering) : a.then b = if a = .eq then b else a := by
  cases a <;> simp [Ordering.then]

theorem addrCmp_lex (x y : Ipv6) :
    addrCmp x y = lexCmp (segList x) (segList y) := by
  simp [addrCmp, segList, lexCmp, then_eq]

theorem scopeCmp_lex (x y : Ipv6) :
    scopeCmp x y = lexCmp (segKey x) (segKey y) := by
  have h : lexCmp (segKey x) (segKey y)
      = (cmpN (scopePos (v6_scope x)) (scopePos (v6_scope y))).then
          (lexCmp (segList x) (segList y)) := rfl
  rw [h, then_ite, ← addrCmp_lex]
  rfl

theorem scopeCmp_eq {x y : Ipv6} : scopeCmp x y = .eq ↔ x = y := by
  rw [scopeCmp_lex, lexCmp_eq]
  constructor
  · intro h
    cases x
    cases y
    simp_all [segKey, segList]
  · rintro rfl
    rfl

theorem scopeCmp_swap (x y : Ipv6) : (scopeCmp x y).swap = scopeCmp y x := by
  rw [scopeCmp_lex, scopeCmp_lex, lexCmp_swap]

theorem scopeCmp_gt_iff {x y : Ipv6} :
    scopeCmp x y = .gt ↔ scopeCmp y x = .lt := by
  rw [← scopeCmp_swap x y]
  cases h : scopeCmp x y <;> simp [Ordering.swap]

theorem scopeCmp_lt_trans {x y z : Ipv6} (h1 : scopeCmp x y = .lt)
    (h2 : scopeCmp y z = .lt) : scopeCmp x z = .lt := by
  rw [scopeCmp_lex] at h1 h2 ⊢
  exact lexCmp_lt_trans h1 h2

theorem scopeCmp_le_trans {x y z : Ipv6} (h1 : scopeCmp x y ≠ .gt)
    (h2 : scopeCmp y z ≠ .gt) : scopeCmp x z ≠ .gt := by
  cases hxy : scopeCmp x y with
  | gt => exact absurd hxy h1
  | eq =>
      obtain rfl := scopeCmp_eq.mp hxy
      exact h2
  | lt =>
      cases hyz : scopeCmp y z with
      | gt => exact absurd hyz h2
      | eq =>
          obtain rfl := scopeCmp_eq.mp hyz
          rw [hxy]
          simp
      | lt =>
          rw [scopeCmp_lt_trans hxy hyz]
          simp

theorem scopeCmp_lt_of_lt_of_le {x y z : Ipv6} (h1 : scopeCmp x y = .lt)
    (h2 : scopeCmp y z ≠ .gt) : scopeCmp x z = .lt := by
  cases hyz : scopeCmp y z with
  | gt => exact absurd hyz h2
  | eq =>
      obtain rfl := scopeCmp_eq.mp hyz
      exact h1
  | lt => exact scopeCmp_lt_trans h1 hyz

theorem foldlMax_spec (xs : List Ipv6) :
    ∀ a : Ipv6,
      (xs.foldl (fun m y => if scopeCmp m y = .gt then m else y) a = a
        ∨ xs.foldl (fun m y => if scopeCmp m y = .gt then m else y) a ∈ xs)
      ∧ scopeCmp a (xs.foldl (fun m y => if scopeCmp m y = .gt then m else y) a)
          ≠ .gt
      ∧ ∀ z ∈ xs,
          scopeCmp z (xs.foldl (fun m y => if scopeCmp m y = .gt then m else y) a)
            ≠ .gt := by
  induction xs with
  | nil =>
      intro a
      refine ⟨Or.inl rfl, ?_, by simp⟩
      simp only [List.foldl_nil]
      rw [scopeCmp_eq.mpr rfl]
      simp
  | cons y ys ih =>
      intro a
      simp only [List.foldl_cons]
      by_cases hgt : scopeCmp a y = .gt
      · rw [if_pos hgt]
        obtain ⟨hmem, hbound, hall⟩ := ih a
        refine ⟨?_, hbound, ?_⟩
        · rcases hmem with h | h
          · exact Or.inl h
          · exact Or.inr (List.mem_cons_of_mem _ h)
        · intro z hz
          rcases List.mem_cons.mp hz with rfl | hz'
          · have hy : scopeCmp z a = .lt := scopeCmp_gt_iff.mp hgt
            rw [scopeCmp_lt_of_lt_of_le hy hbound]
            simp
          · exact hall z hz'
      · rw [if_neg hgt]
        obtain ⟨hmem, hbound, hall⟩ := ih y
        refine ⟨?_, scopeCmp_le_trans hgt hbound, ?_⟩
        · rcases hmem with h | h
          · exact Or.inr (by rw [h]; exact List.mem_cons_self _ _)
          · exact Or.inr (List.mem_cons_of_mem _ h)
        · intro z hz
          rcases List.mem_cons.mp hz with rfl | hz'
          · exact hbound
          · exact hall z hz'

theorem listMax_mem_and_bound (l : List Ipv6) (m : Ipv6)
    (h : listMax l = some m) : m ∈ l ∧ ∀ z ∈ l, scopeCmp z m ≠ .gt := by
  cases l with
  | nil => exact nomatch h
  | cons x xs =>
      simp only [listMax, Option.some_inj] at h
      subst h
      obtain ⟨hmem, hbound, hall⟩ := foldlMax_spec xs x
      refine ⟨?_, ?_⟩
      · rcases hmem with h | h
        · rw [h]
          exact List.mem_cons_self _ _
        · exact List.mem_cons_of_mem _ h
      · intro z hz
        rcases List.mem_cons.mp hz with rfl | hz'
        · exact hbound
        · exact hall z hz'

theorem listMax_isSome (l : List Ipv6) (h : l ≠ []) :
    (listMax l).isSome = true := by
  cases l with
  | nil => exact absurd rfl h
  | cons x xs => rfl

theorem listMax_perm (l₁ l₂ : List Ipv6) (h : l₁.Perm l₂) :
    listMax l₁ = listMax l₂ := by
  rcases l₁ with _ | ⟨x, xs⟩
  · rw [h.symm.eq_nil]
  · have h2ne : l₂ ≠ [] := by
      intro he
      rw [he] at h
      exact absurd h.eq_nil (by simp)
    obtain ⟨m₁, hm₁⟩ := Option.isSome_iff_exists.mp
      (listMax_isSome (x :: xs) (by simp))
    obtain ⟨m₂, hm₂⟩ := Option.isSome_iff_exists.mp (listMax_isSome l₂ h2ne)
    obtain ⟨hmem₁, hb₁⟩ := listMax_mem_and_bound _ _ hm₁
    obtain ⟨hmem₂, hb₂⟩ := listMax_mem_and_bound _ _ hm₂
    have h12 : scopeCmp m₁ m₂ ≠ .gt := hb₂ m₁ (h.mem_iff.mp hmem₁)
    have h21 : scopeCmp m₂ m₁ ≠ .gt := hb₁ m₂ (h.mem_iff.mpr hmem₂)
    have hmm : m₁ = m₂ := by
      cases hc : scopeCmp m₁ m₂ with
      | eq => exact scopeCmp_eq.mp hc
      | gt => exact absurd hc h12
      | lt => exact absurd (scopeCmp_gt_iff.mpr hc) h21
    rw [hm₁, hm₂, hmm]

/-- C8: the comparator sorts UniqueLocalAddress above Global above
LinkLocal (the strict `fe80::/64` form) above every other scope
(Loopback, Unspecified and Multicast all share the lowest position), a
lower scope position loses and equal positions fall back to the numeric
address comparison; consequently the maximum over a non-empty list of
IPv6 addresses exists and is the same for any input order. -/
theorem c8_scope_ordering_max :
    (scopePos .global < scopePos .uniqueLocalAddress
      ∧ scopePos .link < scopePos .global
      ∧ scopePos .loopback < scopePos .link
      ∧ scopePos .loopback = scopePos .unspecified
      ∧ scopePos .unspecified = scopePos .multicast)
    ∧ (∀ x : Ipv6, v6_scope x = .link ↔
        (x.s0 = 0xfe80 ∧ x.s1 = 0 ∧ x.s2 = 0 ∧ x.s3 = 0))
    ∧ (∀ x y : Ipv6, scopePos (v6_scope x) < scopePos (v6_scope y) →
        scopeCmp x y = .lt)
    ∧ (∀ x y : Ipv6, scopePos (v6_scope x) = scopePos (v6_scope y) →
        scopeCmp x y = addrCmp x y)
    ∧ (∀ l₁ l₂ : List Ipv6, l₁.Perm l₂ → listMax l₁ = listMax l₂)
    ∧ (∀ l : List Ipv6, l ≠ [] → (listMax l).isSome = true) := by
  refine ⟨by decide, ?_, ?_, ?_, listMax_perm, listMax_isSome⟩
  · intro x
    constructor
    · intro h
      unfold v6_scope at h
      split_ifs at h with h1 h2 h3 h4 h5
      all_goals simp_all
    · rintro ⟨h0, h1, h2, h3⟩
      have hna : ¬ (x.s0 &&& 0xfe00 = 0xfc00) := by
        rw [h0]; decide
      have hnb : x ≠ Ipv6.localhost := by
        intro he
        rw [he] at h0
        exact absurd h0 (by decide)
      have hnc : x ≠ Ipv6.unspecified := by
        intro he
        rw [he] at h0
        exact absurd h0 (by decide)
      unfold v6_scope
      rw [if_neg hna, if_neg hnb, if_neg hnc, if_pos ⟨h0, h1, h2, h3⟩]
  · intro x y h
    have hc : cmpN (scopePos (v6_scope x)) (scopePos (v6_scope y)) = .lt :=
      cmpN_lt.mpr h
    simp [scopeCmp, hc]
  · intro x y h
    have hc : cmpN (scopePos (v6_scope x)) (scopePos (v6_scope y)) = .eq :=
      cmpN_eq.mpr h
    simp [scopeCmp, hc]

/-- A strict-form link-local address used by the C8 witness. -/
def wLinkLocal : Ipv6 := ⟨0xfe80, 0, 0, 0, 0, 0, 0, 1⟩

/-- A unique-local address used by the C8 witness. -/
def wUla : Ipv6 := ⟨0xfd00, 0, 0, 0, 0, 0, 0, 1⟩

/-- C8 witness: the link-local sorts below the unique-local address,
equal positions fall back to the address comparison, and the maximum of
a two-element list is insensitive to the order of its elements. -/
theorem c8_scope_ordering_max_witness :
    scopeCmp wLinkLocal wUla = .lt
    ∧ scopeCmp wUla wUla = addrCmp wUla wUla
    ∧ listMax [wLinkLocal, wUla] = listMax [wUla, wLinkLocal]
    ∧ (listMax [wLinkLocal]).isSome = true :=
  ⟨c8_scope_ordering_max.2.2.1 wLinkLocal wUla (by decide),
   c8_scope_ordering_max.2.2.2.1 wUla wUla rfl,
   c8_scope_ordering_max.2.2.2.2.1 _ _ (List.Perm.swap wUla wLinkLocal []),
   c8_scope_ordering_max.2.2.2.2.2 [wLinkLocal] (by simp)⟩

end Erbium
